import Mathlib

/-!
Shallow embedding of the retry-with-fallback orchestration core of
`src/app.py` (AI Hedge Fund dashboard): the `Agent` class with its
bounded-retry / simulated-fallback policy, the three-stage pipeline
(Technical, News, Supervisor) in the run-analysis block, and the
BUY/SELL/HOLD decision banner classification.

External collaborators are modelled as oracles:
* the model client is a function `gen : Nat -> Option String` giving the
  outcome of the n-th `generate_content` call of the run (`some t` is a
  successful response with text `t`, `none` is a raised exception);
* the price history provider behind `yf.Ticker(...).history` is a function
  `hist : String -> Option (String x String)` returning the already
  formatted current-price and percent-change numeral strings (the
  floating-point formatting `:.2f` / `:+.2f` of the source is abstracted
  as these provider-supplied strings; `none` covers both an empty history
  and a raised exception, the two cases in which `get_stock_price`
  returns `None`);
* the news provider behind `yf.Ticker(...).news` is a function
  `news : String -> Except Unit (List String)` returning the list of
  headline title strings, or an error for a raised exception.
-/

namespace HedgeFund

/-- Does `needle` occur at the start of `hay`? Helper for Python
substring membership. -/
def leadsList : List Char → List Char → Bool
  | [], _ => true
  | _ :: _, [] => false
  | a :: as, b :: bs => a == b && leadsList as bs

/-- Python substring containment `needle in hay` on character lists:
true when `needle` occurs contiguously anywhere in `hay`. -/
def hasSub (needle : List Char) : List Char → Bool
  | [] => leadsList needle []
  | c :: rest => leadsList needle (c :: rest) || hasSub needle rest

/-- Python string membership test `needle in hay`. -/
def strIn (needle hay : String) : Bool := hasSub needle.toList hay.toList

/-- Embedding of the Python `str.upper()` call used by the decision
banner (character-wise uppercasing; the role markers involved are
ASCII, where `Char.toUpper` agrees with Python). -/
def pyUpper (s : String) : String := String.mk (s.toList.map Char.toUpper)

/-- The decision label of the final banner. -/
inductive Decision where
  | BUY
  | SELL
  | HOLD
deriving DecidableEq

/-- The decision banner of `src/app.py` lines 232-238: label BUY when
`"BUY" in res_c.upper()`, else SELL when `"SELL" in res_c.upper()`,
else HOLD. -/
def classify (text : String) : Decision :=
  if strIn "BUY" (pyUpper text) then Decision.BUY
  else if strIn "SELL" (pyUpper text) then Decision.SELL
  else Decision.HOLD

/-- An observable call to an external collaborator made by the
run-analysis block or by an agent. -/
inductive Event where
  | priceCall (symbol : String)
  | newsCall (symbol : String)
  | modelCall (model : String) (prompt : String)
deriving DecidableEq

/-- The `Agent` class of `src/app.py` lines 125-129: a name, a model
identifier and an instruction string. -/
structure Agent where
  name : String
  model : String
  instructions : String
deriving DecidableEq

/-- The combined prompt built at line 133:
`f"{self.instructions}\nDATA:\n{context}\nTASK: {prompt}"`. -/
def Agent.final_prompt (a : Agent) (context prompt : String) : String :=
  a.instructions ++ "\nDATA:\n" ++ context ++ "\nTASK: " ++ prompt

/-- Canned fallback text of line 146 (role marker "Technical"). -/
def simTechnical : String :=
  "SIMULATION: Trend is UP. RSI is 40. Strong Support at $130."

/-- Canned fallback text of line 148 (role marker "News"). -/
def simNews : String :=
  "SIMULATION: Market sentiment is cautious but optimistic. Earnings report pending."

/-- Canned fallback text of line 149 (generic BUY decision). -/
def simGeneric : String :=
  "SIMULATION DECISION: BUY. (API Quota Reached)."

/-- The role dispatch of lines 145-149: the simulated result is chosen
by substring-matching the agent name against the role markers. -/
def Agent.simulated (a : Agent) : String :=
  if strIn "Technical" a.name then simTechnical
  else if strIn "News" a.name then simNews
  else simGeneric

/-- The retry bound of the `for attempt in range(2)` loop at line 135. -/
def maxAttempts : Nat := 2

/-- The retry loop of lines 135-142, run with `n` remaining attempts and
`k` model-client calls already issued in this run: each iteration issues
one `generate_content` call (recorded as an event); a successful call
returns its text at once, a raised exception moves to the next attempt.
Returns the successful text, if any, together with the emitted events. -/
def attemptLoop (gen : Nat → Option String) (ev : Event) :
    Nat → Nat → Option String × List Event
  | _, 0 => (none, [])
  | k, n + 1 =>
    match gen k with
    | some t => (some t, [ev])
    | none =>
      let r := attemptLoop gen ev (k + 1) n
      (r.1, ev :: r.2)

/-- The result of one `Agent.work` call: the returned text, and whether
it came from the simulated-fallback branch (lines 144-149) rather than
from a model response. -/
structure AgentResult where
  text : String
  wasSimulated : Bool
deriving DecidableEq

/-- `Agent.work` of `src/app.py` lines 131-149 (the status-box UI writes
are not part of the data contract and are not modelled): try the model
client up to `maxAttempts` times with the combined prompt; on the first
success return the response text, and if every attempt raises, return
the role-specific simulated result. `k` is the number of model-client
calls already issued in this run; the emitted model-call events are
returned alongside the result. -/
def Agent.work (a : Agent) (gen : Nat → Option String) (k : Nat)
    (context prompt : String) : AgentResult × List Event :=
  match attemptLoop gen
      (Event.modelCall a.model (a.final_prompt context prompt)) k maxAttempts with
  | (some t, evs) => ({ text := t, wasSimulated := false }, evs)
  | (none, evs) => ({ text := a.simulated, wasSimulated := true }, evs)

/-- `get_stock_price` of `src/app.py` lines 97-108, with the provider
oracle `hist` standing for `yf.Ticker(symbol).history(period="1d")`
together with the float formatting: `hist symbol = some (cur, chg)`
means the history is available and formats to current price `cur` and
percent change `chg`; `none` means the history was empty or an
exception was raised, the two cases in which the source returns `None`.
On success the source returns the f-string
`f"${current:.2f} ({change:+.2f}%)"`. -/
def get_stock_price (hist : String → Option (String × String))
    (symbol : String) : Option String :=
  match hist symbol with
  | none => none
  | some (cur, chg) => some ("$" ++ cur ++ " (" ++ chg ++ "%)")

/-- Python `"\n".join(lines)`. -/
def joinNL : List String → String
  | [] => ""
  | [s] => s
  | s :: r :: rest => s ++ "\n" ++ joinNL (r :: rest)

/-- `get_market_news` of `src/app.py` lines 111-119, with the provider
oracle `news` standing for `yf.Ticker(symbol).news`, modelled as the
list of the title strings the source interpolates into `f"- {...}"`: on
a raised exception return `"Error fetching news."`, on an empty (falsy)
news list return `"No specific news found."`, otherwise join the first
three `"- <title>"` lines with newlines. -/
def get_market_news (news : String → Except Unit (List String))
    (symbol : String) : String :=
  match news symbol with
  | Except.error _ => "Error fetching news."
  | Except.ok [] => "No specific news found."
  | Except.ok (t :: ts) =>
    joinNL (((t :: ts).take 3).map (fun n => "- " ++ n))

/-- The model identifier set at line 170. -/
def model_name : String := "gemini-1.5-flash"

/-- The Technical agent constructed at lines 192-194. -/
def agent_a : Agent :=
  { name := "Quant", model := model_name,
    instructions := "Analyze technicals (Price, Trends). Be concise." }

/-- The News agent constructed at lines 204-208. -/
def agent_b : Agent :=
  { name := "Journalist", model := model_name,
    instructions := "Analyze sentiment from news headlines. Be concise." }

/-- The Supervisor agent constructed at lines 219-223. -/
def agent_c : Agent :=
  { name := "CIO", model := model_name,
    instructions := "You are a Chief Investment Officer. Decide BUY/SELL/HOLD." }

/-- Outcome of one press of the Run Analysis button: either the early
`st.stop()` of lines 176-178 (no market data), or the full record of
the three agent results and the banner decision. -/
inductive RunOutcome where
  | noMarketData
  | done (price : String) (tech : AgentResult) (news : AgentResult)
      (sup : AgentResult) (decision : Decision)
deriving DecidableEq

/-- Python falsiness of the `if not price_str` check at line 176 on an
optional string: `None` and the empty string are falsy. -/
def pyFalsy : Option String → Bool
  | none => true
  | some s => s == ""

/-- The run-analysis block of `src/app.py` lines 168-238 (UI rendering
elided): fetch the price summary, then the news summary, then stop with
no market data when the price string is falsy; otherwise run the
Technical agent on the price string, the News agent on the news string,
and the Supervisor agent on the labelled concatenation of the two
result texts, and classify the Supervisor text. The model-client oracle
`gen` is indexed by the number of calls already issued, threaded
through the three agents in source order. The trace of external calls
is returned alongside the outcome. -/
def runAnalysis (hist : String → Option (String × String))
    (news : String → Except Unit (List String))
    (gen : Nat → Option String) (ticker : String) :
    RunOutcome × List Event :=
  let price_str := get_stock_price hist ticker
  let news_str := get_market_news news ticker
  let baseTrace := [Event.priceCall ticker, Event.newsCall ticker]
  if pyFalsy price_str then
    (RunOutcome.noMarketData, baseTrace)
  else
    let ps := price_str.getD ""
    let ra := agent_a.work gen 0 ps ("Analyze " ++ ticker)
    let rb := agent_b.work gen ra.2.length news_str
      ("Analyze sentiment for " ++ ticker)
    let final_context := "Tech: " ++ ra.1.text ++ "\nNews: " ++ rb.1.text
    let rc := agent_c.work gen (ra.2.length + rb.2.length) final_context
      "Write a final email decision."
    (RunOutcome.done ps ra.1 rb.1 rc.1 (classify rc.1.text),
      baseTrace ++ ra.2 ++ rb.2 ++ rc.2)

/-- Case-insensitive substring containment, rendered from the
specification words for the decision rule: both the text and the needle
are uppercased character-wise before the containment test. -/
def ciContains (hay needle : String) : Bool :=
  hasSub (needle.toList.map Char.toUpper) (hay.toList.map Char.toUpper)

/-- The decision rule as the specification words it: case-insensitively
scan the text; if it contains the substring "BUY", label BUY; else if
it contains "SELL", label SELL; else label HOLD. Stated separately from
`classify` (which is translated from the source banner) so the two can
be compared. -/
def specClassify (text : String) : Decision :=
  if ciContains text "BUY" then Decision.BUY
  else if ciContains text "SELL" then Decision.SELL
  else Decision.HOLD

/-- Concrete price-history oracle: knows the symbol "NVDA" with
formatted price 130.00 and change +2.00, and no other symbol. -/
def histNVDA : String → Option (String × String) :=
  fun s => if s = "NVDA" then some ("130.00", "+2.00") else none

/-- Concrete price-history oracle that knows no symbol. -/
def histNone : String → Option (String × String) := fun _ => none

/-- Concrete news oracle returning an empty headline list. -/
def newsEmpty : String → Except Unit (List String) := fun _ => Except.ok []

/-- Concrete news oracle that raises on every call. -/
def newsErr : String → Except Unit (List String) := fun _ => Except.error ()

/-- Concrete model-client oracle that raises on every call. -/
def genFail : Nat → Option String := fun _ => none

/-- Concrete model-client oracle that succeeds on every call with the
empty response text. -/
def genEmptyText : Nat → Option String := fun _ => some ""

/-! Helper lemmas shared by the claim theorems. -/

lemma price_ne_empty (cur chg : String) : ("$" ++ cur ++ " (" ++ chg ++ "%)") ≠ "" := by
  intro h
  have hl := congrArg String.length h
  simp [String.length_append] at hl
  exact (by decide : ¬ ("$".length = 0)) hl.1.1.1.1

lemma simulated_ne_empty (a : Agent) : a.simulated ≠ "" := by
  unfold Agent.simulated
  split
  · decide
  · split <;> decide

lemma Agent.work_first_some (a : Agent) (gen : Nat → Option String) (k : Nat)
    (context prompt t : String) (h : gen k = some t) :
    a.work gen k context prompt =
      ({ text := t, wasSimulated := false },
        [Event.modelCall a.model (a.final_prompt context prompt)]) := by
  simp [Agent.work, maxAttempts, attemptLoop, h]

lemma Agent.work_second_some (a : Agent) (gen : Nat → Option String) (k : Nat)
    (context prompt t : String) (h0 : gen k = none) (h1 : gen (k + 1) = some t) :
    a.work gen k context prompt =
      ({ text := t, wasSimulated := false },
        [Event.modelCall a.model (a.final_prompt context prompt),
         Event.modelCall a.model (a.final_prompt context prompt)]) := by
  simp [Agent.work, maxAttempts, attemptLoop, h0, h1]

lemma Agent.work_allfail (a : Agent) (gen : Nat → Option String) (k : Nat)
    (context prompt : String) (h0 : gen k = none) (h1 : gen (k + 1) = none) :
    a.work gen k context prompt =
      ({ text := a.simulated, wasSimulated := true },
        [Event.modelCall a.model (a.final_prompt context prompt),
         Event.modelCall a.model (a.final_prompt context prompt)]) := by
  simp [Agent.work, maxAttempts, attemptLoop, h0, h1]

lemma runAnalysis_none (hist : String → Option (String × String))
    (news : String → Except Unit (List String)) (gen : Nat → Option String)
    (ticker : String) (h : get_stock_price hist ticker = none) :
    runAnalysis hist news gen ticker =
      (RunOutcome.noMarketData, [Event.priceCall ticker, Event.newsCall ticker]) := by
  simp [runAnalysis, h, pyFalsy]

lemma runAnalysis_some (hist : String → Option (String × String))
    (news : String → Except Unit (List String)) (gen : Nat → Option String)
    (ticker cur chg : String) (h : hist ticker = some (cur, chg)) :
    runAnalysis hist news gen ticker =
      (let ps := "$" ++ cur ++ " (" ++ chg ++ "%)"
       let ra := agent_a.work gen 0 ps ("Analyze " ++ ticker)
       let rb := agent_b.work gen ra.2.length (get_market_news news ticker)
         ("Analyze sentiment for " ++ ticker)
       let rc := agent_c.work gen (ra.2.length + rb.2.length)
         ("Tech: " ++ ra.1.text ++ "\nNews: " ++ rb.1.text) "Write a final email decision."
       (RunOutcome.done ps ra.1 rb.1 rc.1 (classify rc.1.text),
         [Event.priceCall ticker, Event.newsCall ticker] ++ ra.2 ++ rb.2 ++ rc.2)) := by
  have hps : get_stock_price hist ticker = some ("$" ++ cur ++ " (" ++ chg ++ "%)") := by
    simp [get_stock_price, h]
  have hne := price_ne_empty cur chg
  simp [runAnalysis, hps, pyFalsy, hne]

lemma pyUpper_toList (s : String) : (pyUpper s).toList = s.toList.map Char.toUpper := rfl

lemma Agent.work_events (a : Agent) (gen : Nat → Option String) (k : Nat)
    (context prompt : String) :
    ∀ e ∈ (a.work gen k context prompt).2,
      e = Event.modelCall a.model (a.final_prompt context prompt) := by
  rcases h0 : gen k with _ | t0
  · rcases h1 : gen (k + 1) with _ | t1
    · rw [Agent.work_allfail a gen k context prompt h0 h1]; simp
    · rw [Agent.work_second_some a gen k context prompt t1 h0 h1]; simp
  · rw [Agent.work_first_some a gen k context prompt t0 h0]; simp

lemma Agent.work_events_ne_nil (a : Agent) (gen : Nat → Option String) (k : Nat)
    (context prompt : String) : (a.work gen k context prompt).2 ≠ [] := by
  rcases h0 : gen k with _ | t0
  · rcases h1 : gen (k + 1) with _ | t1
    · rw [Agent.work_allfail a gen k context prompt h0 h1]; simp
    · rw [Agent.work_second_some a gen k context prompt t1 h0 h1]; simp
  · rw [Agent.work_first_some a gen k context prompt t0 h0]; simp

lemma joinNL_ne_empty (s : String) (l : List String) (h : s ≠ "") :
    joinNL (s :: l) ≠ "" := by
  cases l with
  | nil => simpa [joinNL] using h
  | cons r rest =>
    intro hcon
    have h2 := congrArg String.length hcon
    simp [joinNL, String.length_append] at h2
    exact (by decide : ¬ ("\n".length = 0)) h2.1.2

lemma dash_ne_empty (t : String) : ("- " ++ t) ≠ "" := by
  intro hcon
  have h2 := congrArg String.length hcon
  simp [String.length_append] at h2
  exact (by decide : ¬ ("- ".length = 0)) h2.1

/-! Claim theorems. -/

/-- C1, counterexample. The claim says that in the all-fail run the
Technical agent receives the canned technical text and the News agent
the canned sentiment text. On the source this is false: the pipeline
names its agents "Quant", "Journalist" and "CIO", none of which
contains the role markers "Technical" or "News" that `Agent.work`
substring-matches, so at this concrete input (symbol NVDA with price
data available, model client failing on every call) all three agents
receive the generic BUY canned string, which differs from both
role-specific strings. -/
theorem C1_counterexample :
    (runAnalysis histNVDA newsEmpty genFail "NVDA").1 =
      RunOutcome.done "$130.00 (+2.00%)"
        { text := simGeneric, wasSimulated := true }
        { text := simGeneric, wasSimulated := true }
        { text := simGeneric, wasSimulated := true } Decision.BUY ∧
    simGeneric ≠ simTechnical ∧ simGeneric ≠ simNews := by
  refine ⟨by decide, by decide, by decide⟩

/-- C1, amended. When every model-client call fails, `Agent.work`
returns a simulated result with the role dispatch of the source: the
canned technical text when "Technical" occurs in the agent name, else
the canned sentiment text when "News" occurs in it, else the canned
generic BUY decision text. Since the pipeline agent names contain no
role marker, the all-fail pipeline run gives all three agents the same
generic BUY canned string, marked simulated, and the decision is BUY. -/
theorem C1_simulated_dispatch
    (gen : Nat → Option String) (k : Nat) (a : Agent) (context prompt : String)
    (h0 : gen k = none) (h1 : gen (k + 1) = none)
    (hist : String → Option (String × String)) (news : String → Except Unit (List String))
    (genF : Nat → Option String) (ticker cur chg : String)
    (hh : hist ticker = some (cur, chg)) (hf : ∀ n, genF n = none) :
    (a.work gen k context prompt).1 = { text := a.simulated, wasSimulated := true } ∧
    (strIn "Technical" a.name = true → a.simulated = simTechnical) ∧
    (strIn "Technical" a.name = false → strIn "News" a.name = true →
      a.simulated = simNews) ∧
    (strIn "Technical" a.name = false → strIn "News" a.name = false →
      a.simulated = simGeneric) ∧
    (runAnalysis hist news genF ticker).1 =
      RunOutcome.done ("$" ++ cur ++ " (" ++ chg ++ "%)")
        { text := simGeneric, wasSimulated := true }
        { text := simGeneric, wasSimulated := true }
        { text := simGeneric, wasSimulated := true } Decision.BUY := by
  refine ⟨?_, ?_, ?_, ?_, ?_⟩
  · rw [Agent.work_allfail a gen k context prompt h0 h1]
  · intro ht; simp [Agent.simulated, ht]
  · intro ht hn; simp [Agent.simulated, ht, hn]
  · intro ht hn; simp [Agent.simulated, ht, hn]
  · have ha : agent_a.simulated = simGeneric := by decide
    have hb : agent_b.simulated = simGeneric := by decide
    have hc : agent_c.simulated = simGeneric := by decide
    have hbuy : classify simGeneric = Decision.BUY := by decide
    rw [runAnalysis_some hist news genF ticker cur chg hh]
    simp [Agent.work_allfail, hf, ha, hb, hc, hbuy]

/-- C1, witness for the amended theorem at concrete inputs. -/
theorem C1_simulated_dispatch_witness :
    (Agent.work agent_a genFail 0 "ctx" "task").1 =
      { text := agent_a.simulated, wasSimulated := true } ∧
    (strIn "Technical" agent_a.name = true → agent_a.simulated = simTechnical) ∧
    (strIn "Technical" agent_a.name = false → strIn "News" agent_a.name = true →
      agent_a.simulated = simNews) ∧
    (strIn "Technical" agent_a.name = false → strIn "News" agent_a.name = false →
      agent_a.simulated = simGeneric) ∧
    (runAnalysis histNVDA newsEmpty genFail "NVDA").1 =
      RunOutcome.done ("$" ++ "130.00" ++ " (" ++ "+2.00" ++ "%)")
        { text := simGeneric, wasSimulated := true }
        { text := simGeneric, wasSimulated := true }
        { text := simGeneric, wasSimulated := true } Decision.BUY :=
  C1_simulated_dispatch genFail 0 agent_a "ctx" "task" rfl rfl histNVDA newsEmpty
    genFail "NVDA" "130.00" "+2.00" rfl (fun _ => rfl)

/-- C2, counterexample. The claim says `Agent.work` returns a non-empty
text for every model-client behavior; but when the first call succeeds
with the empty response text, the source returns that empty text
unchanged. -/
theorem C2_counterexample :
    (Agent.work agent_a genEmptyText 0 "ctx" "task").1.text = "" := by decide

/-- C2, amended. `Agent.work` returns a non-empty text whenever every
successful model response is non-empty; in particular on total failure
the canned simulated strings are all non-empty, so no failure mode of
the model client can produce an empty result. -/
theorem C2_nonempty (a : Agent) (gen : Nat → Option String) (k : Nat)
    (context prompt : String) (h : ∀ i t, gen i = some t → t ≠ "") :
    (a.work gen k context prompt).1.text ≠ "" := by
  rcases h0 : gen k with _ | t0
  · rcases h1 : gen (k + 1) with _ | t1
    · rw [Agent.work_allfail a gen k context prompt h0 h1]
      exact simulated_ne_empty a
    · rw [Agent.work_second_some a gen k context prompt t1 h0 h1]
      exact h (k + 1) t1 h1
  · rw [Agent.work_first_some a gen k context prompt t0 h0]
    exact h k t0 h0

/-- C2, witness: with the always-failing client (where the
non-emptiness side condition holds vacuously) the result text is
non-empty. -/
theorem C2_nonempty_witness :
    (Agent.work agent_a genFail 0 "ctx" "task").1.text ≠ "" :=
  C2_nonempty agent_a genFail 0 "ctx" "task" (fun _ _ hit => Option.noConfusion hit)

/-- C3. For every agent, model-client behavior, call offset, context
and task, `Agent.work` issues at most `maxAttempts` (2) model-client
calls, all with the one combined prompt, and always yields a result:
either the text of a successful call within the bound (not simulated),
or, after exactly `maxAttempts` failed calls, the role-specific
simulated fallback; no error propagates outward. -/
theorem C3_bounded_total (a : Agent) (gen : Nat → Option String) (k : Nat)
    (context prompt : String) :
    (a.work gen k context prompt).2.length ≤ maxAttempts ∧
    (∀ e ∈ (a.work gen k context prompt).2,
      e = Event.modelCall a.model (a.final_prompt context prompt)) ∧
    ((∃ i, i < maxAttempts ∧ gen (k + i) = some (a.work gen k context prompt).1.text ∧
        (a.work gen k context prompt).1.wasSimulated = false) ∨
      ((a.work gen k context prompt).1 = { text := a.simulated, wasSimulated := true } ∧
        (a.work gen k context prompt).2.length = maxAttempts)) := by
  rcases h0 : gen k with _ | t0
  · rcases h1 : gen (k + 1) with _ | t1
    · rw [Agent.work_allfail a gen k context prompt h0 h1]
      exact ⟨by simp [maxAttempts], by simp, Or.inr ⟨rfl, by simp [maxAttempts]⟩⟩
    · rw [Agent.work_second_some a gen k context prompt t1 h0 h1]
      exact ⟨by simp [maxAttempts], by simp,
        Or.inl ⟨1, by simp [maxAttempts], by simpa using h1, rfl⟩⟩
  · rw [Agent.work_first_some a gen k context prompt t0 h0]
    exact ⟨by simp [maxAttempts], by simp,
      Or.inl ⟨0, by simp [maxAttempts], by simpa using h0, rfl⟩⟩

/-- C4. When the price summary is absent, the run stops with no market
data: the outcome is `noMarketData`, the trace holds exactly the price
call and the news call, and in particular no model-client call is made
(no agent is run). -/
theorem C4_no_market_data (hist : String → Option (String × String))
    (news : String → Except Unit (List String)) (gen : Nat → Option String)
    (ticker : String) (h : get_stock_price hist ticker = none) :
    (runAnalysis hist news gen ticker).1 = RunOutcome.noMarketData ∧
    (runAnalysis hist news gen ticker).2 =
      [Event.priceCall ticker, Event.newsCall ticker] ∧
    (∀ m p, Event.modelCall m p ∉ (runAnalysis hist news gen ticker).2) := by
  rw [runAnalysis_none hist news gen ticker h]
  refine ⟨rfl, rfl, ?_⟩
  intro m p hm
  simp at hm

/-- C4, witness at the unknown symbol ZZZINVALID. -/
theorem C4_no_market_data_witness :
    (runAnalysis histNone newsEmpty genFail "ZZZINVALID").1 = RunOutcome.noMarketData ∧
    (runAnalysis histNone newsEmpty genFail "ZZZINVALID").2 =
      [Event.priceCall "ZZZINVALID", Event.newsCall "ZZZINVALID"] ∧
    (∀ m p, Event.modelCall m p ∉
      (runAnalysis histNone newsEmpty genFail "ZZZINVALID").2) :=
  C4_no_market_data histNone newsEmpty genFail "ZZZINVALID" rfl

/-- C5. The banner classification of the source agrees on every text
with the specification rule (case-insensitive containment of "BUY",
else "SELL", else HOLD), and the three sample classifications hold:
text containing both markers resolves to BUY, "hold steady" to HOLD
and "SELL now" to SELL. -/
theorem C5_classifier (text : String) :
    classify text = specClassify text ∧
    classify "... BUY ... SELL ..." = Decision.BUY ∧
    classify "hold steady" = Decision.HOLD ∧
    classify "SELL now" = Decision.SELL := by
  refine ⟨?_, by decide, by decide, by decide⟩
  have hb : ("BUY".toList.map Char.toUpper) = "BUY".toList := by decide
  have hs : ("SELL".toList.map Char.toUpper) = "SELL".toList := by decide
  have hd : ∀ s : String, (pyUpper s).data = s.data.map Char.toUpper := fun _ => rfl
  simp [classify, specClassify, strIn, ciContains, pyUpper_toList, hd, hb, hs]

/-- C6. For every symbol whose price history is present, the run
terminates with a full decision record for every news-provider and
model-client behavior (including an always-failing client), and the
outcome is never `noMarketData`, the only failure constructor a caller
can see. -/
theorem C6_total_on_valid (hist : String → Option (String × String))
    (news : String → Except Unit (List String)) (gen : Nat → Option String)
    (ticker cur chg : String) (h : hist ticker = some (cur, chg)) :
    (runAnalysis hist news gen ticker).1 ≠ RunOutcome.noMarketData ∧
    ∃ ra rb rc : AgentResult,
      (runAnalysis hist news gen ticker).1 =
        RunOutcome.done ("$" ++ cur ++ " (" ++ chg ++ "%)") ra rb rc
          (classify rc.text) := by
  rw [runAnalysis_some hist news gen ticker cur chg h]
  exact ⟨by simp, ⟨_, _, _, rfl⟩⟩

/-- C6, witness: NVDA with a raising news provider and an always
failing model client still produces a decision. -/
theorem C6_total_on_valid_witness :
    (runAnalysis histNVDA newsErr genFail "NVDA").1 ≠ RunOutcome.noMarketData ∧
    ∃ ra rb rc : AgentResult,
      (runAnalysis histNVDA newsErr genFail "NVDA").1 =
        RunOutcome.done ("$" ++ "130.00" ++ " (" ++ "+2.00" ++ "%)") ra rb rc
          (classify rc.text) :=
  C6_total_on_valid histNVDA newsErr genFail "NVDA" "130.00" "+2.00" rfl

/-- C7. When the news provider raises, the headlines step substitutes
the fixed placeholder string and never propagates the error: for every
symbol with price data the run still completes with a decision, so the
pipeline never fails because of news. -/
theorem C7_news_best_effort (news : String → Except Unit (List String)) (symbol : String)
    (h : news symbol = Except.error ()) :
    get_market_news news symbol = "Error fetching news." ∧
    ∀ (hist : String → Option (String × String)) (gen : Nat → Option String)
      (cur chg : String), hist symbol = some (cur, chg) →
      ∃ ra rb rc : AgentResult,
        (runAnalysis hist news gen symbol).1 =
          RunOutcome.done ("$" ++ cur ++ " (" ++ chg ++ "%)") ra rb rc
            (classify rc.text) := by
  refine ⟨by simp [get_market_news, h], ?_⟩
  intro hist gen cur chg hh
  rw [runAnalysis_some hist news gen symbol cur chg hh]
  exact ⟨_, _, _, rfl⟩

/-- C7, witness at NVDA with the always-raising news provider. -/
theorem C7_news_best_effort_witness :
    get_market_news newsErr "NVDA" = "Error fetching news." ∧
    ∃ ra rb rc : AgentResult,
      (runAnalysis histNVDA newsErr genFail "NVDA").1 =
        RunOutcome.done ("$" ++ "130.00" ++ " (" ++ "+2.00" ++ "%)") ra rb rc
          (classify rc.text) := by
  have h := C7_news_best_effort newsErr "NVDA" rfl
  exact ⟨h.1, h.2 histNVDA genFail "130.00" "+2.00" rfl⟩

/-- C8. In every completed run the Supervisor agent is run (its event
block is non-empty) and every model call it makes carries the prompt
built from the context that concatenates the Technical and News result
texts under the fixed labels Tech and News; the context is a function
of the two texts alone. -/
theorem C8_supervisor_context (hist : String → Option (String × String))
    (news : String → Except Unit (List String)) (gen : Nat → Option String)
    (ticker cur chg : String) (h : hist ticker = some (cur, chg)) :
    ∃ (ra rb rc : AgentResult) (pre evC : List Event),
      (runAnalysis hist news gen ticker).1 =
        RunOutcome.done ("$" ++ cur ++ " (" ++ chg ++ "%)") ra rb rc
          (classify rc.text) ∧
      (runAnalysis hist news gen ticker).2 = pre ++ evC ∧
      evC ≠ [] ∧
      (∀ e ∈ evC, e = Event.modelCall agent_c.model
        (agent_c.final_prompt ("Tech: " ++ ra.text ++ "\nNews: " ++ rb.text)
          "Write a final email decision.")) := by
  rw [runAnalysis_some hist news gen ticker cur chg h]
  refine ⟨_, _, _, _, _, rfl, rfl, ?_, ?_⟩
  · exact Agent.work_events_ne_nil agent_c gen _ _ _
  · exact Agent.work_events agent_c gen _ _ _

/-- C8, witness at NVDA with the always-failing model client. -/
theorem C8_supervisor_context_witness :
    ∃ (ra rb rc : AgentResult) (pre evC : List Event),
      (runAnalysis histNVDA newsEmpty genFail "NVDA").1 =
        RunOutcome.done ("$" ++ "130.00" ++ " (" ++ "+2.00" ++ "%)") ra rb rc
          (classify rc.text) ∧
      (runAnalysis histNVDA newsEmpty genFail "NVDA").2 = pre ++ evC ∧
      evC ≠ [] ∧
      (∀ e ∈ evC, e = Event.modelCall agent_c.model
        (agent_c.final_prompt ("Tech: " ++ ra.text ++ "\nNews: " ++ rb.text)
          "Write a final email decision.")) :=
  C8_supervisor_context histNVDA newsEmpty genFail "NVDA" "130.00" "+2.00" rfl

/-- C9. The headlines fetch always returns a non-empty string: the
fixed error placeholder when the provider raises, the fixed no-news
placeholder when it returns an empty list, and otherwise the
newline-join of up to three lines of the form dash, space, title. -/
theorem C9_news_nonempty (news : String → Except Unit (List String)) (symbol : String) :
    get_market_news news symbol ≠ "" ∧
    (get_market_news news symbol = "Error fetching news." ∨
     get_market_news news symbol = "No specific news found." ∨
     ∃ t ts, news symbol = Except.ok (t :: ts) ∧
       get_market_news news symbol =
         joinNL (((t :: ts).take 3).map (fun n => "- " ++ n))) := by
  rcases hn : news symbol with e | l
  · have hge : get_market_news news symbol = "Error fetching news." := by
      simp [get_market_news, hn]
    exact ⟨by rw [hge]; decide, Or.inl hge⟩
  · cases l with
    | nil =>
      have hge : get_market_news news symbol = "No specific news found." := by
        simp [get_market_news, hn]
      exact ⟨by rw [hge]; decide, Or.inr (Or.inl hge)⟩
    | cons t ts =>
      have hget : get_market_news news symbol =
          joinNL (((t :: ts).take 3).map (fun n => "- " ++ n)) := by
        simp [get_market_news, hn]
      refine ⟨?_, Or.inr (Or.inr ⟨t, ts, rfl, hget⟩)⟩
      rw [hget]
      have hsplit : ((t :: ts).take 3).map (fun n => "- " ++ n) =
          ("- " ++ t) :: ((ts.take 2).map (fun n => "- " ++ n)) := by
        simp [List.take]
      rw [hsplit]
      exact joinNL_ne_empty _ _ (dash_ne_empty t)

/-- C9, witness at a raising news provider. -/
theorem C9_news_nonempty_witness :
    get_market_news newsErr "MSFT" ≠ "" ∧
    (get_market_news newsErr "MSFT" = "Error fetching news." ∨
     get_market_news newsErr "MSFT" = "No specific news found." ∨
     ∃ t ts, newsErr "MSFT" = Except.ok (t :: ts) ∧
       get_market_news newsErr "MSFT" =
         joinNL (((t :: ts).take 3).map (fun n => "- " ++ n))) :=
  C9_news_nonempty newsErr "MSFT"

/-- C10. The trace of every run begins with the price call followed by
the news call, before the price result is inspected; in particular
when the price summary is absent the run still performed the news call
even though it stops with no market data. -/
theorem C10_news_before_check (hist : String → Option (String × String))
    (news : String → Except Unit (List String)) (gen : Nat → Option String)
    (ticker : String) :
    (runAnalysis hist news gen ticker).2.take 2 =
      [Event.priceCall ticker, Event.newsCall ticker] ∧
    (get_stock_price hist ticker = none →
      (runAnalysis hist news gen ticker).1 = RunOutcome.noMarketData ∧
      Event.newsCall ticker ∈ (runAnalysis hist news gen ticker).2) := by
  rcases hh : hist ticker with _ | ⟨cur, chg⟩
  · have hp : get_stock_price hist ticker = none := by simp [get_stock_price, hh]
    rw [runAnalysis_none hist news gen ticker hp]
    exact ⟨rfl, fun _ => ⟨rfl, by simp⟩⟩
  · have hp : get_stock_price hist ticker =
        some ("$" ++ cur ++ " (" ++ chg ++ "%)") := by simp [get_stock_price, hh]
    rw [runAnalysis_some hist news gen ticker cur chg hh]
    refine ⟨rfl, ?_⟩
    intro hcon
    rw [hp] at hcon
    exact Option.noConfusion hcon

/-- C10, witness at an unknown symbol. -/
theorem C10_news_before_check_witness :
    (runAnalysis histNone newsEmpty genFail "ZZZ").2.take 2 =
      [Event.priceCall "ZZZ", Event.newsCall "ZZZ"] ∧
    ((runAnalysis histNone newsEmpty genFail "ZZZ").1 = RunOutcome.noMarketData ∧
      Event.newsCall "ZZZ" ∈ (runAnalysis histNone newsEmpty genFail "ZZZ").2) := by
  have h := C10_news_before_check histNone newsEmpty genFail "ZZZ"
  exact ⟨h.1, h.2 rfl⟩

end HedgeFund
